import Mathlib

/-!
Verification of the external-module code generator
(`crates/rspack_core/src/external_module.rs`).

The Rust source is embedded shallowly: strings stay `String`, the
`HashMap`-backed init-fragment registry becomes an association list with
insert-if-absent (`entry(..).or_insert(..)`) semantics, the bitflags
runtime-globals set becomes a duplicate-free list, and fallible
generation returns `Except`.  Collaborator types that live outside the
embedded file (`to_identifier`, the graph-id resolver, the runtime-global
display names, the fragment-stage enumeration) are modelled from the
specification and marked as such in their doc comments.
-/

namespace Rspack

/-- The two output kinds an external module can declare (`SourceType` in
`rspack_core`; only the variants this file uses). -/
inductive SourceType where
  | JavaScript
  | Css
deriving DecidableEq, Repr

/-- Modelled from the spec: the init-fragment ordering tiers ("`stage` is an
ordering tier"); the embedded file only ever uses the import-hoisting stage
`STAGE_HARMONY_IMPORTS`, a second tier is kept so the type is not a singleton. -/
inductive InitFragmentStage where
  | STAGE_CONSTANTS
  | STAGE_HARMONY_IMPORTS
deriving DecidableEq, Repr

/-- `InitFragment::new(content, stage, end_content)`. -/
structure InitFragment where
  content : String
  stage : InitFragmentStage
  end_content : Option String
deriving DecidableEq, Repr

/-- `ChunkInitFragments`: a string-keyed registry of init fragments.  The Rust
type is a `HashMap<String, InitFragment>`; it is embedded as an association
list so that insertion order is visible. -/
abbrev ChunkInitFragments := List (String × InitFragment)

/-- Whether the registry already holds key `k` (`HashMap::contains_key`). -/
def containsKey (m : ChunkInitFragments) (k : String) : Bool :=
  m.any fun p => p.1 == k

/-- `map.entry(k).or_insert(v)`: insert `(k, v)` only when `k` is absent;
an occupied entry is left untouched. -/
def entryOrInsert (m : ChunkInitFragments) (k : String) (v : InitFragment) :
    ChunkInitFragments :=
  if containsKey m k then m else m ++ [(k, v)]

/-- Modelled from the spec: the accumulation of several generation passes'
fragments into one shared registry ("many requests for the same key within one
generation pass collapse to a single emission"), with insert-if-absent
semantics for every fragment. -/
def mergeFragments (acc extra : ChunkInitFragments) : ChunkInitFragments :=
  extra.foldl (fun acc p => entryOrInsert acc p.1 p.2) acc

/-- The runtime-global capability flags the embedded file can request
(`RuntimeGlobals` is a bitflags set in Rust; only this flag is used here). -/
inductive RuntimeGlobal where
  | DEFINE_PROPERTY_GETTERS
deriving DecidableEq, Repr

/-- A runtime-globals set: duplicate-free list standing for the bitflags set. -/
abbrev RuntimeGlobals := List RuntimeGlobal

/-- `RuntimeGlobals::add`: union with a single flag (idempotent). -/
def RuntimeGlobals.add (s : RuntimeGlobals) (g : RuntimeGlobal) : RuntimeGlobals :=
  if s.contains g then s else s ++ [g]

/-- `RuntimeGlobals::add` with a whole set (bitflags union). -/
def RuntimeGlobals.addAll (s t : RuntimeGlobals) : RuntimeGlobals :=
  t.foldl RuntimeGlobals.add s

/-- Modelled from the spec: the display name of the `DEFINE_PROPERTY_GETTERS`
runtime global interpolated into generated text ("needs a define-property-getters
helper"); the webpack-compatible runtime name used by `rspack_core`. -/
def RuntimeGlobal.name : RuntimeGlobal → String
  | .DEFINE_PROPERTY_GETTERS => "__webpack_require__.d"

/-- The output-configuration fields `get_source` reads
(`compilation.options.output`). -/
structure OutputOptions where
  import_function_name : String
  global_object : String
  module : Bool

/-- `compilation.options`. -/
structure CompilationOptions where
  output : OutputOptions

/-- The read-only compilation context.  `moduleId` models the collaborator
lookup `module_graph.module_graph_module_by_identifier(ident).map(|m|
m.id(&chunk_graph))`: the graph-id resolver, "giving this entity's assigned
graph id (if any)" (modelled from the spec; the graph lives outside the
embedded file). -/
structure Compilation where
  options : CompilationOptions
  moduleId : String → Option String

/-- Modelled from the spec: `to_identifier` (defined elsewhere in
`rspack_core`), "identifier sanitization (replacing disallowed characters)":
every character that is not alphanumeric, `$` or `_` becomes `_`. -/
def to_identifier (s : String) : String :=
  String.mk (s.data.map fun c => if c.isAlphanum || c == '$' || c == '_' then c else '_')

/-- A lowercase hexadecimal digit. -/
def hexDigit (n : Nat) : Char :=
  if n < 10 then Char.ofNat (48 + n) else Char.ofNat (87 + n)

/-- `serde_json`'s escaping of one character inside a JSON string literal:
quote and backslash get a backslash, the short control escapes are used where
they exist, other control characters become `\u00xx`, everything else (all
non-ASCII included) is passed through verbatim. -/
def jsonEscapeChar (c : Char) : String :=
  if c == '"' then "\\\""
  else if c == '\\' then "\\\\"
  else if c == '\x08' then "\\b"
  else if c == '\t' then "\\t"
  else if c == '\n' then "\\n"
  else if c == '\x0c' then "\\f"
  else if c == '\r' then "\\r"
  else if c.toNat < 32 then "\\u00" ++ String.mk [hexDigit (c.toNat / 16), hexDigit (c.toNat % 16)]
  else String.singleton c

/-- `serde_json::to_string` applied to a string value: the double-quoted,
escaped JSON literal. -/
def jsonEncodeString (s : String) : String :=
  "\"" ++ String.join (s.data.map jsonEscapeChar) ++ "\""

/-- `serde_json::to_string(&self.request)` as the fallible call the Rust code
makes: serializing a Rust `String` never fails, so the result is always `ok`. -/
def json_to_string (s : String) : Except String String :=
  Except.ok (jsonEncodeString s)

/-- `ExternalType` is a plain string tag in `rspack_core`. -/
abbrev ExternalType := String

/-- The `ExternalModule` record: derived identity, request, linkage tag and
the user-facing request. -/
structure ExternalModule where
  id : String
  request : String
  external_type : ExternalType
  user_request : String

/-- `ExternalModule::new`: the identity is
`format!("external \x7bexternal_type\x7d \x7brequest\x7d")`. -/
def ExternalModule.new (request : String) (external_type : ExternalType)
    (user_request : String) : ExternalModule :=
  { id := "external " ++ external_type ++ " " ++ request
    request := request
    external_type := external_type
    user_request := user_request }

/-- `Identifiable::identifier`. -/
def ExternalModule.identifier (m : ExternalModule) : String := m.id

/-- `get_source_for_commonjs`. -/
def ExternalModule.get_source_for_commonjs (m : ExternalModule) : String :=
  "module.exports = require('" ++ m.request ++ "')"

/-- `get_source_for_import`. -/
def ExternalModule.get_source_for_import (m : ExternalModule)
    (compilation : Compilation) : String :=
  "module.exports = " ++ compilation.options.output.import_function_name
    ++ "('" ++ m.request ++ "')"

/-- `get_source`: the dispatch over the linkage tag, returning the snippet,
the init fragments added in this pass and the runtime globals requested.  The
Rust `match` over `&str` is a first-match sequence of string comparisons,
embedded as the same sequence in source order. -/
def ExternalModule.get_source (m : ExternalModule) (compilation : Compilation) :
    String × ChunkInitFragments × RuntimeGlobals :=
  let t := m.external_type
  if t = "this" then
    ("module.exports = (function() \x7b return this['" ++ m.request ++ "']; \x7d())", [], [])
  else if t = "window" ∨ t = "self" then
    ("module.exports = " ++ m.external_type ++ "['" ++ m.request ++ "']", [], [])
  else if t = "global" then
    ("module.exports = " ++ compilation.options.output.global_object
      ++ "['" ++ m.request ++ "']", [], [])
  else if t = "commonjs" ∨ t = "commonjs2" ∨ t = "commonjs-module" ∨ t = "commonjs-static" then
    (m.get_source_for_commonjs, [], [])
  else if t = "node-commonjs" then
    if compilation.options.output.module then
      ("__WEBPACK_EXTERNAL_createRequire(import.meta.url)('" ++ m.request ++ "')",
        entryOrInsert [] "external module node-commonjs"
          (InitFragment.mk
            "import \x7b createRequire as __WEBPACK_EXTERNAL_createRequire \x7d from 'module';\n"
            InitFragmentStage.STAGE_HARMONY_IMPORTS none),
        [])
    else
      (m.get_source_for_commonjs, [], [])
  else if t = "amd" ∨ t = "amd-require" ∨ t = "umd" ∨ t = "umd2" ∨ t = "system" ∨ t = "jsonp" then
    let id := (compilation.moduleId m.identifier).getD ""
    ("module.exports = __WEBPACK_EXTERNAL_MODULE_" ++ to_identifier id ++ "__", [], [])
  else if t = "import" then
    (m.get_source_for_import compilation, [], [])
  else if t = "var" ∨ t = "promise" ∨ t = "const" ∨ t = "let" ∨ t = "assign" then
    ("module.exports = " ++ m.request, [], [])
  else if t = "module" then
    if compilation.options.output.module then
      let id := (compilation.moduleId m.identifier).getD ""
      let identifier := to_identifier id
      ("var x = y => \x7b var x = \x7b\x7d; "
          ++ RuntimeGlobal.name RuntimeGlobal.DEFINE_PROPERTY_GETTERS
          ++ "(x, y); return x; \x7d\n            var y = x => () => x\n            module.exports = __WEBPACK_EXTERNAL_MODULE_"
          ++ identifier ++ "__",
        entryOrInsert [] ("external module import " ++ identifier)
          (InitFragment.mk
            ("import * as __WEBPACK_EXTERNAL_MODULE_" ++ identifier ++ "__ from '"
              ++ m.request ++ "';\n")
            InitFragmentStage.STAGE_HARMONY_IMPORTS none),
        RuntimeGlobals.add [] RuntimeGlobal.DEFINE_PROPERTY_GETTERS)
    else
      (m.get_source_for_import compilation)  |> (fun s => (s, [], []))
  else
    ("", [], [])

/-- `CodeGenerationResult`: per-output-kind generated text (the
`GenerationResult`/`AstOrSource`/`RawSource` wrappers collapse to the text),
the auxiliary-data map, the fragments, the runtime globals, and whether
`set_hash` ran (the hash value itself plays no role in any claim). -/
structure CodeGenerationResult where
  inner : List (SourceType × String)
  data : List (String × String)
  chunk_init_fragments : ChunkInitFragments
  runtime_requirements : RuntimeGlobals
  hashed : Bool
deriving DecidableEq, Repr

/-- `CodeGenerationResult::default()`. -/
def CodeGenerationResult.default : CodeGenerationResult :=
  { inner := [], data := [], chunk_init_fragments := [], runtime_requirements := []
    hashed := false }

/-- `cgr.add(source_type, generation_result)`. -/
def CodeGenerationResult.add (cgr : CodeGenerationResult) (st : SourceType)
    (text : String) : CodeGenerationResult :=
  { cgr with inner := cgr.inner ++ [(st, text)] }

/-- `cgr.set_hash()` (records that the content hash was computed). -/
def CodeGenerationResult.set_hash (cgr : CodeGenerationResult) : CodeGenerationResult :=
  { cgr with hashed := true }

/-- `code_generation`, parameterized by the string encoder so that the
propagation of an encoding failure (`?` on `serde_json::to_string`) is part of
the embedded structure. -/
def ExternalModule.code_generation_with (enc : String → Except String String)
    (m : ExternalModule) (compilation : Compilation) :
    Except String CodeGenerationResult :=
  let cgr := CodeGenerationResult.default
  if m.external_type = "asset" then do
    let lit ← enc m.request
    let cgr := cgr.add SourceType.JavaScript ("module.exports = " ++ lit ++ ";")
    Except.ok { cgr with data := cgr.data ++ [("url", m.request)] }
  else if m.external_type = "css-import" then do
    let lit ← enc m.request
    Except.ok (cgr.add SourceType.Css ("@import url(" ++ lit ++ ");"))
  else
    let res := m.get_source compilation
    let cgr := cgr.add SourceType.JavaScript res.1
    Except.ok (CodeGenerationResult.set_hash
      { cgr with
        chunk_init_fragments := res.2.1
        runtime_requirements := RuntimeGlobals.addAll cgr.runtime_requirements res.2.2 })

/-- `Module::code_generation` as the Rust code runs it, with
`serde_json::to_string` as the encoder. -/
def ExternalModule.code_generation (m : ExternalModule) (compilation : Compilation) :
    Except String CodeGenerationResult :=
  ExternalModule.code_generation_with json_to_string m compilation

/-- `EXTERNAL_MODULE_JS_SOURCE_TYPES`. -/
def EXTERNAL_MODULE_JS_SOURCE_TYPES : List SourceType := [SourceType.JavaScript]

/-- `EXTERNAL_MODULE_CSS_SOURCE_TYPES`. -/
def EXTERNAL_MODULE_CSS_SOURCE_TYPES : List SourceType := [SourceType.Css]

/-- `Module::source_types`. -/
def ExternalModule.source_types (m : ExternalModule) : List SourceType :=
  if m.external_type == "css-import" then EXTERNAL_MODULE_CSS_SOURCE_TYPES
  else EXTERNAL_MODULE_JS_SOURCE_TYPES

/-- `impl Hash for ExternalModule`: what is fed to the hasher — the fixed tag
string, then the identifier.  Two modules hash alike exactly when these pairs
are equal. -/
def ExternalModule.hash_input (m : ExternalModule) : String × String :=
  ("__rspack_internal__ExternalModule", m.identifier)

/-- `impl PartialEq for ExternalModule`: identifier comparison. -/
def ExternalModule.eq (a b : ExternalModule) : Bool :=
  a.identifier == b.identifier

/-- A compilation context with ES-module output disabled and no graph ids
assigned. -/
def ctx0 : Compilation :=
  { options := { output := { import_function_name := "import", global_object := "global", module := false } }
    moduleId := fun _ => none }

/-- A compilation context with ES-module output enabled and no graph ids
assigned. -/
def ctxEsm : Compilation :=
  { options := { output := { import_function_name := "import", global_object := "global", module := true } }
    moduleId := fun _ => none }

/-- Cancelling a common prefix and a common suffix of string concatenations. -/
theorem str_mid (p q a b : String) (h : p ++ a ++ q = p ++ b ++ q) : a = b := by
  have hd : (p ++ a ++ q).data = (p ++ b ++ q).data := by rw [h]
  simp only [String.data_append, List.append_assoc] at hd
  exact String.ext (List.append_cancel_right (List.append_cancel_left hd))

/-- C1 counterexample: the claim says the request literal embedded by the
`this` snippet is JSON-string-encoded; for the request `a'b` (which contains a
quote) the generated snippet embeds the raw request between single quotes,
unescaped, and differs from the snippet that would embed the JSON encoding. -/
theorem C1_counterexample_raw_quote :
    ((ExternalModule.new "a'b" "this" "a'b").get_source ctx0).1
      = "module.exports = (function() \x7b return this['a'b']; \x7d())"
    ∧ ((ExternalModule.new "a'b" "this" "a'b").get_source ctx0).1
      ≠ "module.exports = (function() \x7b return this[" ++ jsonEncodeString "a'b"
          ++ "]; \x7d())"
    ∧ jsonEncodeString "a'b" = "\"a'b\"" := by
  refine ⟨by decide, by decide, by decide⟩

/-- C1 (amended): only `asset` and `css-import` JSON-string-encode the request;
every script-snippet tag that embeds the request (`this`, `window`, `self`,
`global`, the commonjs family, `node-commonjs`, `import`, `module` behaving as
`import`) splices the raw request text between single quotes with no escaping. -/
theorem C1_request_embedding_amended (r u : String) (c : Compilation) :
    ((ExternalModule.new r "this" u).get_source c).1
        = "module.exports = (function() \x7b return this['" ++ r ++ "']; \x7d())"
    ∧ ((ExternalModule.new r "window" u).get_source c).1
        = "module.exports = window['" ++ r ++ "']"
    ∧ ((ExternalModule.new r "self" u).get_source c).1
        = "module.exports = self['" ++ r ++ "']"
    ∧ ((ExternalModule.new r "global" u).get_source c).1
        = "module.exports = " ++ c.options.output.global_object ++ "['" ++ r ++ "']"
    ∧ ((ExternalModule.new r "commonjs" u).get_source c).1
        = "module.exports = require('" ++ r ++ "')"
    ∧ ((ExternalModule.new r "commonjs2" u).get_source c).1
        = "module.exports = require('" ++ r ++ "')"
    ∧ ((ExternalModule.new r "commonjs-module" u).get_source c).1
        = "module.exports = require('" ++ r ++ "')"
    ∧ ((ExternalModule.new r "commonjs-static" u).get_source c).1
        = "module.exports = require('" ++ r ++ "')"
    ∧ ((ExternalModule.new r "node-commonjs" u).get_source c).1
        = (if c.options.output.module then
            "__WEBPACK_EXTERNAL_createRequire(import.meta.url)('" ++ r ++ "')"
          else "module.exports = require('" ++ r ++ "')")
    ∧ ((ExternalModule.new r "import" u).get_source c).1
        = "module.exports = " ++ c.options.output.import_function_name
            ++ "('" ++ r ++ "')"
    ∧ (c.options.output.module = false →
        ((ExternalModule.new r "module" u).get_source c).1
          = "module.exports = " ++ c.options.output.import_function_name
              ++ "('" ++ r ++ "')")
    ∧ (ExternalModule.new r "asset" u).code_generation c
        = Except.ok
            { inner := [(SourceType.JavaScript, "module.exports = " ++ jsonEncodeString r ++ ";")]
              data := [("url", r)]
              chunk_init_fragments := []
              runtime_requirements := []
              hashed := false }
    ∧ (ExternalModule.new r "css-import" u).code_generation c
        = Except.ok
            { inner := [(SourceType.Css, "@import url(" ++ jsonEncodeString r ++ ");")]
              data := []
              chunk_init_fragments := []
              runtime_requirements := []
              hashed := false } := by
  refine ⟨?_, ?_, ?_, ?_, ?_, ?_, ?_, ?_, ?_, ?_, ?_, ?_, ?_⟩
  · simp [ExternalModule.get_source, ExternalModule.new]
  · simp [ExternalModule.get_source, ExternalModule.new]
  · simp [ExternalModule.get_source, ExternalModule.new]
  · simp [ExternalModule.get_source, ExternalModule.new]
  · simp [ExternalModule.get_source, ExternalModule.new,
      ExternalModule.get_source_for_commonjs]
  · simp [ExternalModule.get_source, ExternalModule.new,
      ExternalModule.get_source_for_commonjs]
  · simp [ExternalModule.get_source, ExternalModule.new,
      ExternalModule.get_source_for_commonjs]
  · simp [ExternalModule.get_source, ExternalModule.new,
      ExternalModule.get_source_for_commonjs]
  · cases hm : c.options.output.module <;>
      simp [ExternalModule.get_source, ExternalModule.new, hm,
        ExternalModule.get_source_for_commonjs]
  · simp [ExternalModule.get_source, ExternalModule.new,
      ExternalModule.get_source_for_import]
  · intro hm
    simp [ExternalModule.get_source, ExternalModule.new, hm,
      ExternalModule.get_source_for_import]
  · rfl
  · rfl

/-- C2 evaluation at the failing input: with `module` linkage, ES-module
output and no assigned graph id, the generated snippet defines the getter-copy
helper `x` and the thunk helper `y` but its final statement assigns
`module.exports` the imported namespace binding itself — the helper is never
applied, contradicting the claim that the export is the fresh copied object. -/
theorem C2_module_esm_exports_namespace_eval :
    ((ExternalModule.new "m" "module" "m").get_source ctxEsm).1
      = "var x = y => \x7b var x = \x7b\x7d; __webpack_require__.d(x, y); return x; \x7d\n            var y = x => () => x\n            module.exports = __WEBPACK_EXTERNAL_MODULE___" := by
  decide

/-- C3: the derived identity depends only on the linkage type and the request;
two entities built with the same `(request, linkage_type)` and arbitrary
`user_request` values have the same identity, compare equal, and feed the same
input to the hasher; the identity is the fixed prefix plus both fields. -/
theorem C3_identity_ignores_user_request (request external_type u1 u2 : String) :
    (ExternalModule.new request external_type u1).identifier
        = (ExternalModule.new request external_type u2).identifier
    ∧ (ExternalModule.new request external_type u1).eq
        (ExternalModule.new request external_type u2) = true
    ∧ (ExternalModule.new request external_type u1).hash_input
        = (ExternalModule.new request external_type u2).hash_input
    ∧ (ExternalModule.new request external_type u1).identifier
        = "external " ++ external_type ++ " " ++ request := by
  refine ⟨?_, ?_, ?_, ?_⟩
  · rfl
  · simp [ExternalModule.eq, ExternalModule.new, ExternalModule.identifier]
  · rfl
  · rfl

/-- C4: with the real encoder (`serde_json::to_string`, total on strings)
every generation call succeeds; were the encoder to fail on the request, the
`asset` and `css-import` paths would propagate that very error as the result
of the whole call (an `Except.error` carries no partial result), and no other
tag's generation path consults the encoder at all. -/
theorem C4_encoding_failure_semantics :
    (∀ (m : ExternalModule) (c : Compilation), (m.code_generation c).isOk = true)
    ∧ (∀ (enc : String → Except String String) (m : ExternalModule) (c : Compilation)
        (e : String),
        m.external_type = "asset" ∨ m.external_type = "css-import" →
        enc m.request = Except.error e →
        ExternalModule.code_generation_with enc m c = Except.error e)
    ∧ (∀ (enc : String → Except String String) (m : ExternalModule) (c : Compilation),
        ¬ m.external_type = "asset" → ¬ m.external_type = "css-import" →
        (ExternalModule.code_generation_with enc m c).isOk = true) := by
  refine ⟨?_, ?_, ?_⟩
  · intro m c
    simp only [ExternalModule.code_generation, ExternalModule.code_generation_with,
      json_to_string]
    split_ifs <;> rfl
  · intro enc m c e h henc
    rcases h with h | h <;> simp [ExternalModule.code_generation_with, h, henc] <;> rfl
  · intro enc m c h1 h2
    simp only [ExternalModule.code_generation_with]
    rw [if_neg h1, if_neg h2]
    rfl

/-- C5: with ES-module output disabled, generation for the `module` tag and
for the `import` tag produce the same snippet, the same (empty) init
fragments, and the same (empty) runtime globals, whatever the request and the
configured import-function name. -/
theorem C5_module_without_esm_equals_import (r u1 u2 : String)
    (compilation : Compilation) (h : compilation.options.output.module = false) :
    (ExternalModule.new r "module" u1).get_source compilation
      = (ExternalModule.new r "import" u2).get_source compilation := by
  simp [ExternalModule.get_source, ExternalModule.new, h,
    ExternalModule.get_source_for_import]

/-- Witness for C5 at request `foo` and a non-ESM compilation. -/
theorem C5_module_without_esm_equals_import_witness :
    (ExternalModule.new "foo" "module" "a").get_source ctx0
      = (ExternalModule.new "foo" "import" "b").get_source ctx0 :=
  C5_module_without_esm_equals_import "foo" "a" "b" ctx0 rfl

/-- C6: two `node-commonjs` entities with different requests, generating under
ES-module output into one shared registry, leave exactly one fragment, keyed
by the fixed `node-commonjs` identity at the import-hoisting stage, while
their snippets differ; and re-inserting an existing fragment identity never
changes or duplicates the stored content. -/
theorem C6_shared_registry_single_fragment (r1 r2 u1 u2 : String)
    (c : Compilation) (hm : c.options.output.module = true) (hne : r1 ≠ r2) :
    mergeFragments ((ExternalModule.new r1 "node-commonjs" u1).get_source c).2.1
        ((ExternalModule.new r2 "node-commonjs" u2).get_source c).2.1
      = [("external module node-commonjs",
          InitFragment.mk
            "import \x7b createRequire as __WEBPACK_EXTERNAL_createRequire \x7d from 'module';\n"
            InitFragmentStage.STAGE_HARMONY_IMPORTS none)]
    ∧ ((ExternalModule.new r1 "node-commonjs" u1).get_source c).1
        ≠ ((ExternalModule.new r2 "node-commonjs" u2).get_source c).1
    ∧ (∀ (frags : ChunkInitFragments) (k : String) (v w : InitFragment),
        entryOrInsert (entryOrInsert frags k v) k w = entryOrInsert frags k v) := by
  refine ⟨?_, ?_, ?_⟩
  · simp [ExternalModule.get_source, ExternalModule.new, hm, mergeFragments,
      entryOrInsert, containsKey]
  · have h1 : ((ExternalModule.new r1 "node-commonjs" u1).get_source c).1
        = "__WEBPACK_EXTERNAL_createRequire(import.meta.url)('" ++ r1 ++ "')" := by
      simp [ExternalModule.get_source, ExternalModule.new, hm]
    have h2 : ((ExternalModule.new r2 "node-commonjs" u2).get_source c).1
        = "__WEBPACK_EXTERNAL_createRequire(import.meta.url)('" ++ r2 ++ "')" := by
      simp [ExternalModule.get_source, ExternalModule.new, hm]
    rw [h1, h2]
    intro heq
    exact hne (str_mid _ _ _ _ heq)
  · intro frags k v w
    by_cases h : containsKey frags k
    · simp [entryOrInsert, h]
    · have hin : entryOrInsert frags k v = frags ++ [(k, v)] := by
        simp [entryOrInsert, h]
      have h2 : containsKey (frags ++ [(k, v)]) k = true := by
        simp [containsKey]
      rw [hin]
      unfold entryOrInsert
      rw [if_pos h2, ← hin]

/-- Witness for C6 at requests `a` and `b` under an ES-module compilation. -/
theorem C6_shared_registry_single_fragment_witness :
    mergeFragments ((ExternalModule.new "a" "node-commonjs" "a").get_source ctxEsm).2.1
        ((ExternalModule.new "b" "node-commonjs" "b").get_source ctxEsm).2.1
      = [("external module node-commonjs",
          InitFragment.mk
            "import \x7b createRequire as __WEBPACK_EXTERNAL_createRequire \x7d from 'module';\n"
            InitFragmentStage.STAGE_HARMONY_IMPORTS none)] :=
  (C6_shared_registry_single_fragment "a" "b" "a" "b" ctxEsm rfl (by decide)).1

/-- C7: for the six loader-variable tags, when the graph-id resolver has no id
for the entity's identity, generation still succeeds and splices the empty
identifier into the conventional variable name. -/
theorem C7_missing_graph_id_empty_identifier (t r u : String) (c : Compilation)
    (ht : t = "amd" ∨ t = "amd-require" ∨ t = "umd" ∨ t = "umd2" ∨ t = "system" ∨ t = "jsonp")
    (hid : c.moduleId (ExternalModule.new r t u).identifier = none) :
    (ExternalModule.new r t u).get_source c
      = ("module.exports = __WEBPACK_EXTERNAL_MODULE___", [], []) := by
  rcases ht with h|h|h|h|h|h <;> subst h <;>
    simp [ExternalModule.get_source, ExternalModule.new, ExternalModule.identifier,
      hid, to_identifier] at hid ⊢

/-- Witness for C7 at the `amd` tag with no assigned id. -/
theorem C7_missing_graph_id_empty_identifier_witness :
    (ExternalModule.new "dep" "amd" "dep").get_source ctx0
      = ("module.exports = __WEBPACK_EXTERNAL_MODULE___", [], []) :=
  C7_missing_graph_id_empty_identifier "amd" "dep" "dep" ctx0 (Or.inl rfl) rfl

/-- C8: the declared output kinds are exactly `[Css]` precisely when the
linkage type is `css-import` and exactly `[JavaScript]` otherwise, never both
kinds at once, and they do not depend on the request or the user request. -/
theorem C8_source_types_exclusive (r t u : String) :
    ((ExternalModule.new r t u).source_types = [SourceType.Css] ↔ t = "css-import")
    ∧ ((ExternalModule.new r t u).source_types = [SourceType.JavaScript] ↔ ¬ t = "css-import")
    ∧ ¬ (SourceType.JavaScript ∈ (ExternalModule.new r t u).source_types
          ∧ SourceType.Css ∈ (ExternalModule.new r t u).source_types)
    ∧ ∀ (r' u' : String),
        (ExternalModule.new r t u).source_types = (ExternalModule.new r' t u').source_types := by
  by_cases h : t = "css-import" <;>
    simp [ExternalModule.source_types, ExternalModule.new, h,
      EXTERNAL_MODULE_CSS_SOURCE_TYPES, EXTERNAL_MODULE_JS_SOURCE_TYPES]

/-- C9: `asset` with request `a.png`: the script slot holds exactly
`module.exports = "a.png";`, the auxiliary data maps `url` to the verbatim
request, and no init fragments or runtime globals are produced, in every
compilation state. -/
theorem C9_asset_concrete_generation (c : Compilation) (u : String) :
    (ExternalModule.new "a.png" "asset" u).code_generation c
      = Except.ok
          { inner := [(SourceType.JavaScript, "module.exports = \"a.png\";")]
            data := [("url", "a.png")]
            chunk_init_fragments := []
            runtime_requirements := []
            hashed := false } := by
  rfl

/-- C10: for every tag and compilation state the init fragments and runtime
globals of `get_source` are empty, except `node-commonjs` under ES-module
output (one fragment, no globals) and `module` under ES-module output (one
fragment and exactly the define-property-getters global). -/
theorem C10_side_effects_inventory (r u t : String) (c : Compilation) :
    (((ExternalModule.new r t u).get_source c).2.1.length,
      ((ExternalModule.new r t u).get_source c).2.2) =
      (if t = "node-commonjs" ∧ c.options.output.module = true then
        (1, ([] : RuntimeGlobals))
      else if t = "module" ∧ c.options.output.module = true then
        (1, [RuntimeGlobal.DEFINE_PROPERTY_GETTERS])
      else (0, [])) := by
  by_cases hnc : t = "node-commonjs"
  · subst hnc
    cases hm : c.options.output.module <;>
      simp [ExternalModule.get_source, ExternalModule.new, hm, entryOrInsert, containsKey]
  · by_cases hmod : t = "module"
    · subst hmod
      cases hm : c.options.output.module <;>
        simp [ExternalModule.get_source, ExternalModule.new, hm, entryOrInsert,
          containsKey, RuntimeGlobals.add]
    · rw [if_neg (by simp [hnc]), if_neg (by simp [hmod])]
      simp only [ExternalModule.get_source, ExternalModule.new, hnc, hmod, if_false,
        apply_ite Prod.snd, apply_ite Prod.fst, apply_ite List.length]
      split_ifs <;> simp

end Rspack
